import Mathlib

/-!
Verification of the A/B test sample-size calculator
(`src/ab_test_calculator.py`) against its natural-language specification.

The Python module is embedded shallowly over exact rationals:

* `ABTestCalculator` mirrors the constructor fields of the Python class
  (`p1`, `mde`, `alpha`, `power`, `daily_volume`, `treatment_split`);
  the stored derived field `p2 = baseline_rate + minimum_detectable_effect`
  becomes the definition `ABTestCalculator.p2`.
* `scipy.stats.norm.ppf` is an external library function, not code of this
  repository; it is abstracted as an explicit parameter `ppf : ℚ → ℚ`
  passed to every computation that uses it.
* Python float division raises `ZeroDivisionError` on a zero divisor, so
  `calculate_sample_size` returns `Except CalcError _` and guards each
  division whose divisor is not structurally nonzero, in the order the
  divisions occur in the source.
* `math.ceil` becomes `Int.ceil` (`⌈·⌉ : ℚ → ℤ`).
-/

/-- Error kinds observable from the Python module: `ValueError` raised by
input validation (the spec's `InvalidParameter`, carrying the message that
names the offending field) and `ZeroDivisionError` from float division. -/
inductive CalcError where
  | invalidParameter (msg : String)
  | zeroDivision
  deriving DecidableEq

/-- The constructor parameters of `ABTestCalculator.__init__`
(`src/ab_test_calculator.py`, lines 16-47).  Python defaults are
`alpha = 0.05`, `power = 0.80`, `daily_volume = 400`,
`treatment_split = 0.50`; call sites below pass them explicitly. -/
structure ABTestCalculator where
  p1 : ℚ
  mde : ℚ
  alpha : ℚ
  power : ℚ
  daily_volume : ℚ
  treatment_split : ℚ
  deriving DecidableEq

namespace ABTestCalculator

/-- Line 43: `self.p2 = baseline_rate + minimum_detectable_effect`. -/
def p2 (c : ABTestCalculator) : ℚ := c.p1 + c.mde

/-- Method `_validate_inputs` (lines 52-65): the chain of `ValueError` checks,
in source order. -/
def validate (c : ABTestCalculator) : Except CalcError Unit :=
  if ¬(0 < c.p1 ∧ c.p1 < 1) then
    .error (.invalidParameter "baseline_rate must be between 0 and 1")
  else if ¬(0 < c.p2 ∧ c.p2 ≤ 1) then
    .error (.invalidParameter "baseline_rate + MDE must be between 0 and 1")
  else if ¬(0 < c.alpha ∧ c.alpha < 1) then
    .error (.invalidParameter "alpha must be between 0 and 1")
  else if ¬(0 < c.power ∧ c.power < 1) then
    .error (.invalidParameter "power must be between 0 and 1")
  else if c.daily_volume ≤ 0 then
    .error (.invalidParameter "daily_volume must be positive")
  else if ¬(0 < c.treatment_split ∧ c.treatment_split < 1) then
    .error (.invalidParameter "treatment_split must be between 0 and 1")
  else
    .ok ()

/-- Constructor `__init__` (lines 16-50): store the six parameters (with `p2` derived)
and run `_validate_inputs` before the instance becomes usable. -/
def init (p1 mde alpha power daily_volume treatment_split : ℚ) :
    Except CalcError ABTestCalculator :=
  let c : ABTestCalculator := ⟨p1, mde, alpha, power, daily_volume, treatment_split⟩
  match c.validate with
  | .error e => .error e
  | .ok _ => .ok c

/-- Line 76: `z_alpha = stats.norm.ppf(1 - self.alpha / 2)`. -/
def z_alpha (ppf : ℚ → ℚ) (c : ABTestCalculator) : ℚ := ppf (1 - c.alpha / 2)

/-- Line 77: `z_beta = stats.norm.ppf(self.power)`. -/
def z_beta (ppf : ℚ → ℚ) (c : ABTestCalculator) : ℚ := ppf c.power

/-- Line 80: `p_bar = (self.p1 + self.p2) / 2`. -/
def p_bar (c : ABTestCalculator) : ℚ := (c.p1 + c.p2) / 2

/-- Line 83: `variance = p_bar * (1 - p_bar)`. -/
def variance (c : ABTestCalculator) : ℚ := c.p_bar * (1 - c.p_bar)

/-- Line 86: `numerator = 2 * variance * (z_alpha + z_beta) ** 2`. -/
def numerator (ppf : ℚ → ℚ) (c : ABTestCalculator) : ℚ :=
  2 * c.variance * (z_alpha ppf c + z_beta ppf c) ^ 2

/-- Line 87: `denominator = (self.p2 - self.p1) ** 2`. -/
def denominator (c : ABTestCalculator) : ℚ := (c.p2 - c.p1) ^ 2

/-- Line 89: `n_per_group = numerator / denominator` — the raw (unrounded)
per-group sample size. -/
def n_per_group (ppf : ℚ → ℚ) (c : ABTestCalculator) : ℚ :=
  numerator ppf c / c.denominator

/-- Line 92: `total_n = 2 * n_per_group` — the raw (unrounded) total. -/
def total_n (ppf : ℚ → ℚ) (c : ABTestCalculator) : ℚ := 2 * n_per_group ppf c

/-- Line 95: `control_per_day = self.daily_volume * (1 - self.treatment_split)`. -/
def control_per_day (c : ABTestCalculator) : ℚ :=
  c.daily_volume * (1 - c.treatment_split)

/-- Line 96: `treatment_per_day = self.daily_volume * self.treatment_split`. -/
def treatment_per_day (c : ABTestCalculator) : ℚ :=
  c.daily_volume * c.treatment_split

/-- Line 98: `days_needed_treatment = n_per_group / treatment_per_day`. -/
def days_needed_treatment (ppf : ℚ → ℚ) (c : ABTestCalculator) : ℚ :=
  n_per_group ppf c / c.treatment_per_day

/-- Line 99: `days_needed_control = n_per_group / control_per_day`. -/
def days_needed_control (ppf : ℚ → ℚ) (c : ABTestCalculator) : ℚ :=
  n_per_group ppf c / c.control_per_day

/-- Line 100: `days_needed = max(days_needed_treatment, days_needed_control)`. -/
def days_needed (ppf : ℚ → ℚ) (c : ABTestCalculator) : ℚ :=
  max (days_needed_treatment ppf c) (days_needed_control ppf c)

/-- Line 103: `relative_lift = (self.p2 - self.p1) / self.p1 * 100`. -/
def relative_lift (c : ABTestCalculator) : ℚ := (c.p2 - c.p1) / c.p1 * 100

end ABTestCalculator

/-- The result dictionary returned by `calculate_sample_size`
(lines 105-122), field for field. -/
structure SampleSizeResult where
  baseline_rate_pct : ℚ
  target_rate_pct : ℚ
  absolute_lift_pp : ℚ
  relative_lift_pct : ℚ
  alpha : ℚ
  power : ℚ
  z_alpha : ℚ
  z_beta : ℚ
  pooled_proportion : ℚ
  n_per_group : ℤ
  total_n : ℤ
  daily_volume : ℚ
  treatment_split : ℚ
  control_per_day : ℚ
  treatment_per_day : ℚ
  days_needed : ℤ
  deriving DecidableEq

namespace ABTestCalculator

/-- The result record built on the success path of `calculate_sample_size`
(lines 105-122).  `math.ceil` is `Int.ceil`. -/
def computeResult (ppf : ℚ → ℚ) (c : ABTestCalculator) : SampleSizeResult :=
  { baseline_rate_pct := c.p1 * 100
    target_rate_pct := c.p2 * 100
    absolute_lift_pp := c.mde * 100
    relative_lift_pct := c.relative_lift
    alpha := c.alpha
    power := c.power
    z_alpha := z_alpha ppf c
    z_beta := z_beta ppf c
    pooled_proportion := c.p_bar
    n_per_group := ⌈n_per_group ppf c⌉
    total_n := ⌈total_n ppf c⌉
    daily_volume := c.daily_volume
    treatment_split := c.treatment_split
    control_per_day := c.control_per_day
    treatment_per_day := c.treatment_per_day
    days_needed := ⌈days_needed ppf c⌉ }

/-- Method `calculate_sample_size` (lines 67-122).  The guards model Python's
`ZeroDivisionError`, in the order the divisions occur in the source:
line 89 divides by `denominator`, line 98 by `treatment_per_day`,
line 99 by `control_per_day`, line 103 by `self.p1`. -/
def calculate_sample_size (ppf : ℚ → ℚ) (c : ABTestCalculator) :
    Except CalcError SampleSizeResult :=
  if c.denominator = 0 then .error .zeroDivision
  else if c.treatment_per_day = 0 then .error .zeroDivision
  else if c.control_per_day = 0 then .error .zeroDivision
  else if c.p1 = 0 then .error .zeroDivision
  else .ok (computeResult ppf c)

end ABTestCalculator

/-- Function `calculate_baseline_rate` (lines 175-201), with the print
reporting dropped (presentation only). -/
def calculate_baseline_rate (total_accounts successful_accounts : ℤ) :
    Except CalcError ℚ :=
  if total_accounts ≤ 0 then
    .error (.invalidParameter "total_accounts must be positive")
  else if successful_accounts < 0 ∨ successful_accounts > total_accounts then
    .error (.invalidParameter "successful_accounts must be between 0 and total_accounts")
  else
    .ok ((successful_accounts : ℚ) / (total_accounts : ℚ))

/-- Line 223: the hardcoded MDE list of `sensitivity_analysis`. -/
def mde_values : List ℚ := [2/100, 3/100, 4/100, 5/100, 6/100, 8/100, 10/100]

/-- The loop body of `sensitivity_analysis` (lines 228-243), generalised
over the list it iterates: for each MDE, skip it when
`baseline_rate + mde > 1.0` (line 229), otherwise construct an
`ABTestCalculator` (with the Python default `treatment_split = 0.50`) and
run `calculate_sample_size`, collecting the results the Python loop prints,
in loop order.  An exception inside the loop aborts the whole run, as in
Python. -/
def sweepLoop (ppf : ℚ → ℚ) (baseline_rate daily_volume alpha power : ℚ) :
    List ℚ → Except CalcError (List SampleSizeResult)
  | [] => .ok []
  | mde :: rest =>
    if baseline_rate + mde > 1 then
      sweepLoop ppf baseline_rate daily_volume alpha power rest
    else
      match ABTestCalculator.init baseline_rate mde alpha power daily_volume (1/2) with
      | .error e => .error e
      | .ok c =>
        match ABTestCalculator.calculate_sample_size ppf c with
        | .error e => .error e
        | .ok r =>
          match sweepLoop ppf baseline_rate daily_volume alpha power rest with
          | .error e => .error e
          | .ok l => .ok (r :: l)

/-- Function `sensitivity_analysis` (lines 204-245): the sweep over the hardcoded
`mde_values` list. -/
def sensitivity_analysis (ppf : ℚ → ℚ)
    (baseline_rate daily_volume alpha power : ℚ) :
    Except CalcError (List SampleSizeResult) :=
  sweepLoop ppf baseline_rate daily_volume alpha power mde_values

/-! ## Helper lemmas -/

namespace ABTestCalculator

/-- Validation succeeds exactly when all six parameter conditions hold. -/
lemma validate_ok_iff (c : ABTestCalculator) :
    c.validate = .ok () ↔
      (0 < c.p1 ∧ c.p1 < 1) ∧ (0 < c.p1 + c.mde ∧ c.p1 + c.mde ≤ 1) ∧
      (0 < c.alpha ∧ c.alpha < 1) ∧ (0 < c.power ∧ c.power < 1) ∧
      0 < c.daily_volume ∧ (0 < c.treatment_split ∧ c.treatment_split < 1) := by
  unfold validate p2
  split_ifs with h1 h2 h3 h4 h5 h6 <;> simp_all

/-- Validation either succeeds or raises an `InvalidParameter` error. -/
lemma validate_cases (c : ABTestCalculator) :
    c.validate = .ok () ∨ ∃ msg, c.validate = .error (.invalidParameter msg) := by
  unfold validate
  split_ifs <;> first
    | exact Or.inl rfl
    | exact Or.inr ⟨_, rfl⟩

/-- On the success path, `calculate_sample_size` returns the result record. -/
lemma calculate_sample_size_eq_ok (ppf : ℚ → ℚ) (c : ABTestCalculator)
    (hden : c.denominator ≠ 0) (ht : c.treatment_per_day ≠ 0)
    (hc : c.control_per_day ≠ 0) (hp : c.p1 ≠ 0) :
    calculate_sample_size ppf c = .ok (computeResult ppf c) := by
  unfold calculate_sample_size
  rw [if_neg hden, if_neg ht, if_neg hc, if_neg hp]

/-- Any result returned by `calculate_sample_size` is the result record. -/
lemma calculate_sample_size_ok_elim {ppf : ℚ → ℚ} {c : ABTestCalculator}
    {r : SampleSizeResult} (h : calculate_sample_size ppf c = .ok r) :
    r = computeResult ppf c := by
  unfold calculate_sample_size at h
  split_ifs at h
  exact (Except.ok.injEq _ _ ▸ h).symm

/-- For a validated calculator the pooled proportion lies strictly
between 0 and 1, so its variance term is positive. -/
lemma variance_pos (c : ABTestCalculator)
    (h1 : 0 < c.p1) (h2 : c.p1 < 1) (h3 : 0 < c.p2) (h4 : c.p2 ≤ 1) :
    0 < c.variance := by
  unfold variance p_bar
  nlinarith

/-- A nonzero effect size makes the formula denominator positive. -/
lemma denominator_pos (c : ABTestCalculator) (hm : c.mde ≠ 0) :
    0 < c.denominator := by
  unfold denominator p2
  have h : c.p1 + c.mde - c.p1 = c.mde := by ring
  rw [h]
  positivity

end ABTestCalculator

namespace ABTestCalculator

/-- For a validated calculator with a nonzero effect size, none of the
four divisors of `calculate_sample_size` is zero. -/
lemma divisors_ne_zero (c : ABTestCalculator)
    (hv : c.validate = .ok ()) (hm : c.mde ≠ 0) :
    c.denominator ≠ 0 ∧ c.treatment_per_day ≠ 0 ∧
      c.control_per_day ≠ 0 ∧ c.p1 ≠ 0 := by
  obtain ⟨⟨hp1, _⟩, _, _, _, hdv, hs, hs1⟩ := (validate_ok_iff c).1 hv
  refine ⟨(denominator_pos c hm).ne', ?_, ?_, hp1.ne'⟩
  · unfold treatment_per_day
    exact mul_ne_zero hdv.ne' hs.ne'
  · unfold control_per_day
    exact mul_ne_zero hdv.ne' (by linarith : (0:ℚ) < 1 - c.treatment_split).ne'

end ABTestCalculator

/-! ## Concrete instances used by witnesses and counterexamples -/

/-- A simple concrete stand-in for the quantile function, constantly `3/4`;
used to instantiate theorems whose content does not depend on the
particular quantile values. -/
def ppfW : ℚ → ℚ := fun _ => 3/4

/-- A rational model of `scipy.stats.norm.ppf`, correctly rounded to
`1e-6` at the three probability values probed by the instances below
(`Φ⁻¹(0.975) ≈ 1.959964`, `Φ⁻¹(0.8) ≈ 0.841621`,
`Φ⁻¹(0.800001) ≈ 0.841657`). -/
def ppfN : ℚ → ℚ := fun p =>
  if p = 39/40 then 1959964/1000000
  else if p = 4/5 then 841621/1000000
  else if p = 800001/1000000 then 841657/1000000
  else 0

/-- Concrete valid parameters: baseline 25%, MDE 50 points, alpha 0.05,
power 0.80, 400 units/day, 50/50 split. -/
def cW : ABTestCalculator := ⟨1/4, 1/2, 1/20, 4/5, 400, 1/2⟩

lemma cW_validate : cW.validate = .ok () := by
  rw [ABTestCalculator.validate_ok_iff]
  unfold cW
  norm_num

lemma cW_calc : ABTestCalculator.calculate_sample_size ppfW cW =
    .ok (ABTestCalculator.computeResult ppfW cW) := by
  refine ABTestCalculator.calculate_sample_size_eq_ok ppfW cW ?_ ?_ ?_ ?_ <;>
    · simp only [cW, ABTestCalculator.denominator, ABTestCalculator.p2,
        ABTestCalculator.treatment_per_day, ABTestCalculator.control_per_day]
      norm_num

lemma cW_raw : ABTestCalculator.n_per_group ppfW cW = 9/2 := by
  unfold ABTestCalculator.n_per_group ABTestCalculator.numerator
    ABTestCalculator.variance ABTestCalculator.p_bar
    ABTestCalculator.denominator ABTestCalculator.p2
    ABTestCalculator.z_alpha ABTestCalculator.z_beta ppfW cW
  norm_num

lemma cW_n : (ABTestCalculator.computeResult ppfW cW).n_per_group = 5 := by
  simp only [ABTestCalculator.computeResult]
  rw [cW_raw, Int.ceil_eq_iff] <;> norm_num

lemma cW_total : (ABTestCalculator.computeResult ppfW cW).total_n = 9 := by
  simp only [ABTestCalculator.computeResult, ABTestCalculator.total_n]
  rw [cW_raw, Int.ceil_eq_iff] <;> norm_num

lemma cW_days : (ABTestCalculator.computeResult ppfW cW).days_needed = 1 := by
  simp only [ABTestCalculator.computeResult, ABTestCalculator.days_needed,
    ABTestCalculator.days_needed_treatment, ABTestCalculator.days_needed_control]
  rw [cW_raw]
  simp only [ABTestCalculator.treatment_per_day, ABTestCalculator.control_per_day, cW]
  norm_num
  rw [Int.ceil_eq_iff] <;> norm_num

/-! ## Claim C1 -/

/-- C1: for every parameter set accepted by validation, whenever the
compute operation returns a result, its `n_per_group` equals the ceiling
of `2·p̄·(1−p̄)·(z_alpha + z_beta)² / (target_rate − baseline_rate)²`,
where `z_alpha = ppf (1 − alpha/2)`, `z_beta = ppf power` for the
standard-normal quantile function `ppf`, the target rate is
`baseline_rate + minimum_detectable_effect`, and
`p̄ = (baseline_rate + target_rate)/2`. -/
theorem n_per_group_matches_spec_formula (ppf : ℚ → ℚ) (c : ABTestCalculator)
    (r : SampleSizeResult) (_hv : c.validate = .ok ())
    (h : ABTestCalculator.calculate_sample_size ppf c = .ok r) :
    r.n_per_group =
      ⌈2 * (((c.p1 + (c.p1 + c.mde)) / 2) * (1 - (c.p1 + (c.p1 + c.mde)) / 2)) *
          (ppf (1 - c.alpha / 2) + ppf c.power) ^ 2 / ((c.p1 + c.mde) - c.p1) ^ 2⌉ := by
  rw [ABTestCalculator.calculate_sample_size_ok_elim h]
  simp only [ABTestCalculator.computeResult, ABTestCalculator.n_per_group,
    ABTestCalculator.numerator, ABTestCalculator.variance, ABTestCalculator.p_bar,
    ABTestCalculator.denominator, ABTestCalculator.p2,
    ABTestCalculator.z_alpha, ABTestCalculator.z_beta]

theorem n_per_group_matches_spec_formula_witness :
    cW.validate = .ok () ∧
      (ABTestCalculator.computeResult ppfW cW).n_per_group =
        ⌈2 * (((cW.p1 + (cW.p1 + cW.mde)) / 2) * (1 - (cW.p1 + (cW.p1 + cW.mde)) / 2)) *
            (ppfW (1 - cW.alpha / 2) + ppfW cW.power) ^ 2 / ((cW.p1 + cW.mde) - cW.p1) ^ 2⌉ :=
  ⟨cW_validate, n_per_group_matches_spec_formula ppfW cW _ cW_validate cW_calc⟩

/-! ## Claim C2 -/

/-- C2: for every parameter set accepted by validation, whenever the
compute operation returns a result, its `total_n` is the ceiling of twice
the unrounded per-group size (not twice the rounded `n_per_group`; the
witness exhibits `total_n = 9` next to `n_per_group = 5`). -/
theorem total_n_from_unrounded (ppf : ℚ → ℚ) (c : ABTestCalculator)
    (r : SampleSizeResult) (_hv : c.validate = .ok ())
    (h : ABTestCalculator.calculate_sample_size ppf c = .ok r) :
    r.total_n = ⌈2 * ABTestCalculator.n_per_group ppf c⌉ := by
  rw [ABTestCalculator.calculate_sample_size_ok_elim h]
  rfl

theorem total_n_from_unrounded_witness :
    cW.validate = .ok () ∧
      (ABTestCalculator.computeResult ppfW cW).total_n =
        ⌈2 * ABTestCalculator.n_per_group ppfW cW⌉ ∧
      (ABTestCalculator.computeResult ppfW cW).total_n = 9 ∧
      (ABTestCalculator.computeResult ppfW cW).n_per_group = 5 :=
  ⟨cW_validate, total_n_from_unrounded ppfW cW _ cW_validate cW_calc, cW_total, cW_n⟩

/-! ## Claim C3 -/

/-- C3: for every parameter set accepted by validation, whenever the
compute operation returns a result, its `days_needed` is the ceiling of
the maximum of the unrounded per-group size divided by
`treatment_per_day = daily_volume·treatment_split` and by
`control_per_day = daily_volume·(1 − treatment_split)`. -/
theorem days_needed_from_unrounded (ppf : ℚ → ℚ) (c : ABTestCalculator)
    (r : SampleSizeResult) (_hv : c.validate = .ok ())
    (h : ABTestCalculator.calculate_sample_size ppf c = .ok r) :
    r.days_needed =
      ⌈max (ABTestCalculator.n_per_group ppf c / (c.daily_volume * c.treatment_split))
          (ABTestCalculator.n_per_group ppf c / (c.daily_volume * (1 - c.treatment_split)))⌉ := by
  rw [ABTestCalculator.calculate_sample_size_ok_elim h]
  rfl

theorem days_needed_from_unrounded_witness :
    cW.validate = .ok () ∧
      (ABTestCalculator.computeResult ppfW cW).days_needed =
        ⌈max (ABTestCalculator.n_per_group ppfW cW / (cW.daily_volume * cW.treatment_split))
            (ABTestCalculator.n_per_group ppfW cW / (cW.daily_volume * (1 - cW.treatment_split)))⌉ ∧
      (ABTestCalculator.computeResult ppfW cW).days_needed = 1 :=
  ⟨cW_validate, days_needed_from_unrounded ppfW cW _ cW_validate cW_calc, cW_days⟩

/-! ## Claim C10 -/

/-- C10: for every parameter set accepted by validation, whenever the
compute operation returns a result, its `control_per_day` and
`treatment_per_day` fields sum exactly to `daily_volume`. -/
theorem arm_daily_rates_sum_to_volume (ppf : ℚ → ℚ) (c : ABTestCalculator)
    (r : SampleSizeResult) (_hv : c.validate = .ok ())
    (h : ABTestCalculator.calculate_sample_size ppf c = .ok r) :
    r.control_per_day + r.treatment_per_day = c.daily_volume := by
  rw [ABTestCalculator.calculate_sample_size_ok_elim h]
  simp only [ABTestCalculator.computeResult, ABTestCalculator.control_per_day,
    ABTestCalculator.treatment_per_day]
  ring

theorem arm_daily_rates_sum_to_volume_witness :
    cW.validate = .ok () ∧
      (ABTestCalculator.computeResult ppfW cW).control_per_day +
        (ABTestCalculator.computeResult ppfW cW).treatment_per_day = cW.daily_volume :=
  ⟨cW_validate, arm_daily_rates_sum_to_volume ppfW cW _ cW_validate cW_calc⟩

/-! ## Claim C4 -/

/-- Validated parameters on which the compute step nevertheless divides by
zero: a zero `minimum_detectable_effect` makes `target_rate = baseline_rate`,
which validation accepts. -/
def zeroMdeParams : ABTestCalculator := ⟨1/2, 0, 1/20, 4/5, 400, 1/2⟩

/-- C4 counterexample: `zeroMdeParams` is accepted by validation, yet its
target rate equals its baseline rate, and the compute operation raises a
division-by-zero error instead of returning a result. -/
theorem validated_compute_can_fail :
    zeroMdeParams.validate = .ok () ∧
      zeroMdeParams.p2 = zeroMdeParams.p1 ∧
      ABTestCalculator.calculate_sample_size ppfW zeroMdeParams = .error .zeroDivision := by
  refine ⟨?_, ?_, ?_⟩
  · rw [ABTestCalculator.validate_ok_iff]
    unfold zeroMdeParams
    norm_num
  · simp only [ABTestCalculator.p2, zeroMdeParams]
    norm_num
  · unfold ABTestCalculator.calculate_sample_size
    rw [if_pos]
    simp only [ABTestCalculator.denominator, ABTestCalculator.p2, zeroMdeParams]
    norm_num

/-- C4 (amended): for every parameter set accepted by validation whose
`minimum_detectable_effect` is nonzero, the compute operation succeeds —
it returns the result record and in particular never divides by zero.
(Validation alone does not guarantee `target_rate ≠ baseline_rate`:
a zero effect size is accepted and then makes compute fail, as the
counterexample shows.) -/
theorem validated_nonzero_mde_compute_ok (ppf : ℚ → ℚ) (c : ABTestCalculator)
    (hv : c.validate = .ok ()) (hm : c.mde ≠ 0) :
    ABTestCalculator.calculate_sample_size ppf c =
      .ok (ABTestCalculator.computeResult ppf c) := by
  obtain ⟨hden, ht, hc, hp⟩ := ABTestCalculator.divisors_ne_zero c hv hm
  exact ABTestCalculator.calculate_sample_size_eq_ok ppf c hden ht hc hp

theorem validated_nonzero_mde_compute_ok_witness :
    cW.validate = .ok () ∧ cW.mde ≠ 0 ∧
      ABTestCalculator.calculate_sample_size ppfW cW =
        .ok (ABTestCalculator.computeResult ppfW cW) :=
  ⟨cW_validate, by unfold cW; norm_num,
    validated_nonzero_mde_compute_ok ppfW cW cW_validate (by unfold cW; norm_num)⟩

/-! ## Claim C5 -/

/-- C5: construction fails with an `InvalidParameter` error exactly when
one of the six validation conditions is violated: it returns the stored
parameter record precisely when `baseline_rate ∈ (0,1)`,
`baseline_rate + minimum_detectable_effect ∈ (0,1]`, `alpha ∈ (0,1)`,
`power ∈ (0,1)`, `daily_volume > 0` and `treatment_split ∈ (0,1)` all
hold, and every failure carries an `InvalidParameter` message. -/
theorem init_invalid_parameter_iff (p1 mde alpha power dv split : ℚ) :
    (ABTestCalculator.init p1 mde alpha power dv split =
        .ok ⟨p1, mde, alpha, power, dv, split⟩ ↔
      (0 < p1 ∧ p1 < 1) ∧ (0 < p1 + mde ∧ p1 + mde ≤ 1) ∧
        (0 < alpha ∧ alpha < 1) ∧ (0 < power ∧ power < 1) ∧
        0 < dv ∧ (0 < split ∧ split < 1)) ∧
    (ABTestCalculator.init p1 mde alpha power dv split =
        .ok ⟨p1, mde, alpha, power, dv, split⟩ ∨
      ∃ msg, ABTestCalculator.init p1 mde alpha power dv split =
        .error (.invalidParameter msg)) := by
  set c : ABTestCalculator := ⟨p1, mde, alpha, power, dv, split⟩ with hc
  have hiff := ABTestCalculator.validate_ok_iff c
  rcases ABTestCalculator.validate_cases c with hok | ⟨msg, herr⟩
  · constructor
    · simp only [ABTestCalculator.init, ← hc, hok]
      exact ⟨fun _ => hiff.1 hok, fun _ => trivial⟩
    · left
      simp only [ABTestCalculator.init, ← hc, hok]
  · constructor
    · simp only [ABTestCalculator.init, ← hc, herr]
      constructor
      · intro h
        exact absurd h (by simp)
      · intro h
        exact absurd (hiff.2 h) (by simp [herr])
    · right
      exact ⟨msg, by simp only [ABTestCalculator.init, ← hc, herr]⟩

theorem init_invalid_parameter_iff_witness :
    ABTestCalculator.init (1/5) (1/20) (1/20) (4/5) 400 (1/2) =
      .ok ⟨1/5, 1/20, 1/20, 4/5, 400, 1/2⟩ :=
  (init_invalid_parameter_iff (1/5) (1/20) (1/20) (4/5) 400 (1/2)).1.mpr
    (by norm_num)

/-! ## Claim C7 -/

/-- C7: `calculate_baseline_rate` returns `successful/total` exactly when
`total > 0` and `0 ≤ successful ≤ total`, and every failure is an
`InvalidParameter` error. -/
theorem calculate_baseline_rate_spec (t s : ℤ) :
    (calculate_baseline_rate t s = .ok ((s : ℚ) / (t : ℚ)) ↔
      0 < t ∧ 0 ≤ s ∧ s ≤ t) ∧
    (calculate_baseline_rate t s = .ok ((s : ℚ) / (t : ℚ)) ∨
      ∃ msg, calculate_baseline_rate t s = .error (.invalidParameter msg)) := by
  unfold calculate_baseline_rate
  split_ifs with h1 h2
  · refine ⟨⟨fun h => by simp at h, fun h => absurd h1 (by omega)⟩, Or.inr ⟨_, rfl⟩⟩
  · refine ⟨⟨fun h => by simp at h, fun h => absurd h2 (by omega)⟩, Or.inr ⟨_, rfl⟩⟩
  · exact ⟨⟨fun _ => by omega, fun _ => rfl⟩, Or.inl rfl⟩

theorem calculate_baseline_rate_spec_witness :
    calculate_baseline_rate 1500 300 = .ok (1/5) ∧
      calculate_baseline_rate 100 150 =
        .error (.invalidParameter
          "successful_accounts must be between 0 and total_accounts") := by
  constructor
  · have h := (calculate_baseline_rate_spec 1500 300).1.mpr (by omega)
    rw [h]
    norm_num
  · unfold calculate_baseline_rate
    norm_num

/-! ## Claim C8 -/

/-- Core algebraic fact behind MDE monotonicity: with the baseline `a`
fixed, the pooled-variance term weighted by the opposite squared effect
size strictly favours the larger effect size, for effect sizes in
`(0, 1-a]`. -/
lemma pooled_term_anti (a m1 m2 : ℚ) (ha : 0 < a) (hm1 : 0 < m1)
    (hlt : m1 < m2) (hub : a + m2 ≤ 1) :
    ((a + (a + m2)) / 2 * (1 - (a + (a + m2)) / 2)) * m1 ^ 2 <
      ((a + (a + m1)) / 2 * (1 - (a + (a + m1)) / 2)) * m2 ^ 2 := by
  have hm2 : 0 < m2 := hm1.trans hlt
  have hB : 0 < a * (1 - a) * (m1 + m2) * 2 + (1 - 2 * a) * (m1 * m2) := by
    rcases le_or_lt a (1/2) with h | h
    · nlinarith [mul_pos (mul_pos ha (show (0:ℚ) < 1 - a by linarith))
        (show (0:ℚ) < m1 + m2 by linarith), mul_pos hm1 hm2]
    · nlinarith [mul_nonneg (mul_nonneg (show (0:ℚ) ≤ 2*a - 1 by linarith) hm1.le)
        (show (0:ℚ) ≤ 1 - a - m2 by linarith),
        mul_pos hm1 (show (0:ℚ) < 1 - a by linarith),
        mul_pos (mul_pos ha hm2) (show (0:ℚ) < 1 - a by linarith)]
  nlinarith [mul_pos (show (0:ℚ) < m2 - m1 by linarith) hB]

/-- C8 (amended): holding everything but the effect size fixed, with both
effect sizes positive and a nonzero `z_alpha + z_beta`, a strictly larger
`minimum_detectable_effect` strictly decreases the unrounded per-group
sample size, and the rounded `n_per_group` and `days_needed` are
non-increasing (the strict claim fails for the rounded integer outputs:
nearby effect sizes can share a ceiling, see the counterexample). -/
theorem mde_monotonicity_amended (ppf : ℚ → ℚ) (c1 c2 : ABTestCalculator)
    (r1 r2 : SampleSizeResult)
    (hp : c2.p1 = c1.p1) (ha : c2.alpha = c1.alpha) (hw : c2.power = c1.power)
    (hd : c2.daily_volume = c1.daily_volume)
    (hs : c2.treatment_split = c1.treatment_split)
    (hv1 : c1.validate = .ok ()) (hv2 : c2.validate = .ok ())
    (hm0 : 0 < c1.mde) (hlt : c1.mde < c2.mde)
    (hz : ABTestCalculator.z_alpha ppf c1 + ABTestCalculator.z_beta ppf c1 ≠ 0)
    (h1 : ABTestCalculator.calculate_sample_size ppf c1 = .ok r1)
    (h2 : ABTestCalculator.calculate_sample_size ppf c2 = .ok r2) :
    ABTestCalculator.n_per_group ppf c2 < ABTestCalculator.n_per_group ppf c1 ∧
      r2.n_per_group ≤ r1.n_per_group ∧ r2.days_needed ≤ r1.days_needed := by
  obtain ⟨⟨hp1, hp1'⟩, ⟨hq1, hq1'⟩, _, _, hdv, hsp, hsp'⟩ :=
    (ABTestCalculator.validate_ok_iff c1).1 hv1
  obtain ⟨_, ⟨hq2, hq2'⟩, _, _, _, _, _⟩ :=
    (ABTestCalculator.validate_ok_iff c2).1 hv2
  rw [hp] at hq2'
  have hden1 : 0 < c1.denominator := ABTestCalculator.denominator_pos c1 hm0.ne'
  have hden2 : 0 < c2.denominator :=
    ABTestCalculator.denominator_pos c2 (hm0.trans hlt).ne'
  have ez : ABTestCalculator.z_alpha ppf c2 = ABTestCalculator.z_alpha ppf c1 := by
    unfold ABTestCalculator.z_alpha
    rw [ha]
  have ezb : ABTestCalculator.z_beta ppf c2 = ABTestCalculator.z_beta ppf c1 := by
    unfold ABTestCalculator.z_beta
    rw [hw]
  have hS : 0 < (ABTestCalculator.z_alpha ppf c1 + ABTestCalculator.z_beta ppf c1) ^ 2 :=
    pow_two_pos_of_ne_zero hz
  have e1 : c1.denominator = c1.mde ^ 2 := by
    unfold ABTestCalculator.denominator ABTestCalculator.p2
    ring
  have e2 : c2.denominator = c2.mde ^ 2 := by
    unfold ABTestCalculator.denominator ABTestCalculator.p2
    ring
  have evar1 : c1.variance =
      (c1.p1 + (c1.p1 + c1.mde)) / 2 * (1 - (c1.p1 + (c1.p1 + c1.mde)) / 2) := by
    unfold ABTestCalculator.variance ABTestCalculator.p_bar ABTestCalculator.p2
    ring
  have evar2 : c2.variance =
      (c1.p1 + (c1.p1 + c2.mde)) / 2 * (1 - (c1.p1 + (c1.p1 + c2.mde)) / 2) := by
    unfold ABTestCalculator.variance ABTestCalculator.p_bar ABTestCalculator.p2
    rw [hp]
  have core := pooled_term_anti c1.p1 c1.mde c2.mde hp1 hm0 hlt hq2'
  have raw_lt : ABTestCalculator.n_per_group ppf c2 <
      ABTestCalculator.n_per_group ppf c1 := by
    unfold ABTestCalculator.n_per_group
    rw [div_lt_div_iff₀ hden2 hden1]
    unfold ABTestCalculator.numerator
    rw [ez, ezb, e1, e2, evar1, evar2]
    nlinarith [mul_pos hS (sub_pos.2 core)]
  have eT : c2.treatment_per_day = c1.treatment_per_day := by
    unfold ABTestCalculator.treatment_per_day
    rw [hd, hs]
  have eC : c2.control_per_day = c1.control_per_day := by
    unfold ABTestCalculator.control_per_day
    rw [hd, hs]
  have hT : 0 < c1.treatment_per_day := mul_pos hdv hsp
  have hC : 0 < c1.control_per_day :=
    mul_pos hdv (by linarith : (0:ℚ) < 1 - c1.treatment_split)
  rw [ABTestCalculator.calculate_sample_size_ok_elim h1,
    ABTestCalculator.calculate_sample_size_ok_elim h2]
  refine ⟨raw_lt, Int.ceil_le_ceil raw_lt.le, Int.ceil_le_ceil ?_⟩
  · unfold ABTestCalculator.days_needed ABTestCalculator.days_needed_treatment
      ABTestCalculator.days_needed_control
    rw [eT, eC]
    exact max_le_max ((div_le_div_iff_of_pos_right hT).2 raw_lt.le)
      ((div_le_div_iff_of_pos_right hC).2 raw_lt.le)

/-- Concrete parameters identical to `cW` except for a slightly larger
effect size (`0.51` instead of `0.50`). -/
def cB : ABTestCalculator := ⟨1/4, 51/100, 1/20, 4/5, 400, 1/2⟩

lemma cB_validate : cB.validate = .ok () := by
  rw [ABTestCalculator.validate_ok_iff]
  unfold cB
  norm_num

lemma cW_calc_any (ppf : ℚ → ℚ) : ABTestCalculator.calculate_sample_size ppf cW =
    .ok (ABTestCalculator.computeResult ppf cW) := by
  refine ABTestCalculator.calculate_sample_size_eq_ok ppf cW ?_ ?_ ?_ ?_ <;>
    · simp only [cW, ABTestCalculator.denominator, ABTestCalculator.p2,
        ABTestCalculator.treatment_per_day, ABTestCalculator.control_per_day]
      norm_num

lemma cB_calc_any (ppf : ℚ → ℚ) : ABTestCalculator.calculate_sample_size ppf cB =
    .ok (ABTestCalculator.computeResult ppf cB) := by
  refine ABTestCalculator.calculate_sample_size_eq_ok ppf cB ?_ ?_ ?_ ?_ <;>
    · simp only [cB, ABTestCalculator.denominator, ABTestCalculator.p2,
        ABTestCalculator.treatment_per_day, ABTestCalculator.control_per_day]
      norm_num

lemma cW_rawN : ABTestCalculator.n_per_group ppfN cW = 7848878512225/500000000000 := by
  unfold ABTestCalculator.n_per_group ABTestCalculator.numerator
    ABTestCalculator.variance ABTestCalculator.p_bar
    ABTestCalculator.denominator ABTestCalculator.p2
    ABTestCalculator.z_alpha ABTestCalculator.z_beta ppfN cW
  norm_num

lemma cB_rawN : ABTestCalculator.n_per_group ppfN cB = 348804161083279/23120000000000 := by
  unfold ABTestCalculator.n_per_group ABTestCalculator.numerator
    ABTestCalculator.variance ABTestCalculator.p_bar
    ABTestCalculator.denominator ABTestCalculator.p2
    ABTestCalculator.z_alpha ABTestCalculator.z_beta ppfN cB
  norm_num

lemma cB_rawW : ABTestCalculator.n_per_group ppfW cB = 9999/2312 := by
  unfold ABTestCalculator.n_per_group ABTestCalculator.numerator
    ABTestCalculator.variance ABTestCalculator.p_bar
    ABTestCalculator.denominator ABTestCalculator.p2
    ABTestCalculator.z_alpha ABTestCalculator.z_beta ppfW cB
  norm_num

/-- C8 counterexample: two validated parameter sets that differ only in
`minimum_detectable_effect` (`0.50` versus `0.51`, both positive), fed
with standard-normal quantile values correctly rounded to `1e-6`
(`z_alpha ≈ 1.959964`, `z_beta ≈ 0.841621`), produce the SAME rounded
`n_per_group` (16) and the same `days_needed` (1): the integer outputs do
not strictly decrease when the effect size strictly increases. -/
theorem mde_strict_monotonicity_fails :
    cW.validate = .ok () ∧ cB.validate = .ok () ∧
      cB.p1 = cW.p1 ∧ cB.alpha = cW.alpha ∧ cB.power = cW.power ∧
      cB.daily_volume = cW.daily_volume ∧ cB.treatment_split = cW.treatment_split ∧
      0 < cW.mde ∧ cW.mde < cB.mde ∧
      (ABTestCalculator.calculate_sample_size ppfN cW).map
        SampleSizeResult.n_per_group = .ok 16 ∧
      (ABTestCalculator.calculate_sample_size ppfN cB).map
        SampleSizeResult.n_per_group = .ok 16 ∧
      (ABTestCalculator.calculate_sample_size ppfN cW).map
        SampleSizeResult.days_needed = .ok 1 ∧
      (ABTestCalculator.calculate_sample_size ppfN cB).map
        SampleSizeResult.days_needed = .ok 1 := by
  refine ⟨cW_validate, cB_validate, rfl, rfl, rfl, rfl, rfl,
    by unfold cW; norm_num, by unfold cW cB; norm_num, ?_, ?_, ?_, ?_⟩
  · rw [cW_calc_any ppfN]
    simp only [Except.map, ABTestCalculator.computeResult, Except.ok.injEq]
    rw [cW_rawN, Int.ceil_eq_iff] <;> norm_num
  · rw [cB_calc_any ppfN]
    simp only [Except.map, ABTestCalculator.computeResult, Except.ok.injEq]
    rw [cB_rawN, Int.ceil_eq_iff] <;> norm_num
  · rw [cW_calc_any ppfN]
    simp only [Except.map, ABTestCalculator.computeResult, Except.ok.injEq,
      ABTestCalculator.days_needed, ABTestCalculator.days_needed_treatment,
      ABTestCalculator.days_needed_control]
    rw [cW_rawN]
    simp only [ABTestCalculator.treatment_per_day,
      ABTestCalculator.control_per_day, cW]
    norm_num
    rw [Int.ceil_eq_iff] <;> norm_num
  · rw [cB_calc_any ppfN]
    simp only [Except.map, ABTestCalculator.computeResult, Except.ok.injEq,
      ABTestCalculator.days_needed, ABTestCalculator.days_needed_treatment,
      ABTestCalculator.days_needed_control]
    rw [cB_rawN]
    simp only [ABTestCalculator.treatment_per_day,
      ABTestCalculator.control_per_day, cB]
    norm_num
    rw [Int.ceil_eq_iff] <;> norm_num

theorem mde_monotonicity_amended_witness :
    ABTestCalculator.n_per_group ppfW cB < ABTestCalculator.n_per_group ppfW cW ∧
      (ABTestCalculator.computeResult ppfW cB).n_per_group ≤
        (ABTestCalculator.computeResult ppfW cW).n_per_group ∧
      (ABTestCalculator.computeResult ppfW cB).days_needed ≤
        (ABTestCalculator.computeResult ppfW cW).days_needed :=
  mde_monotonicity_amended ppfW cW cB
    (ABTestCalculator.computeResult ppfW cW) (ABTestCalculator.computeResult ppfW cB)
    rfl rfl rfl rfl rfl cW_validate cB_validate
    (by unfold cW; norm_num) (by unfold cW cB; norm_num)
    (by simp only [ABTestCalculator.z_alpha, ABTestCalculator.z_beta, ppfW]; norm_num)
    cW_calc (cB_calc_any ppfW)

/-! ## Claim C9 -/

/-- C9 (amended): holding everything but `power` fixed, with a nonzero
effect size, a quantile function that increases between the two powers,
and `z_alpha + z_beta ≥ 0` at the smaller power, a strictly larger
`power` strictly increases the unrounded per-group sample size, and the
rounded `n_per_group` is non-decreasing (the strict claim fails for the
rounded integer output: nearby powers can share a ceiling, see the
counterexample). -/
theorem power_monotonicity_amended (ppf : ℚ → ℚ) (c1 c2 : ABTestCalculator)
    (r1 r2 : SampleSizeResult)
    (hp : c2.p1 = c1.p1) (hm : c2.mde = c1.mde) (ha : c2.alpha = c1.alpha)
    (_hd : c2.daily_volume = c1.daily_volume)
    (_hs : c2.treatment_split = c1.treatment_split)
    (hv1 : c1.validate = .ok ()) (_hv2 : c2.validate = .ok ())
    (_hpw : c1.power < c2.power) (hmde : c1.mde ≠ 0)
    (hmono : ppf c1.power < ppf c2.power)
    (hz : 0 ≤ ABTestCalculator.z_alpha ppf c1 + ABTestCalculator.z_beta ppf c1)
    (h1 : ABTestCalculator.calculate_sample_size ppf c1 = .ok r1)
    (h2 : ABTestCalculator.calculate_sample_size ppf c2 = .ok r2) :
    ABTestCalculator.n_per_group ppf c1 < ABTestCalculator.n_per_group ppf c2 ∧
      r1.n_per_group ≤ r2.n_per_group := by
  obtain ⟨⟨hp1, hp1'⟩, ⟨hq1, hq1'⟩, _, _, _, _, _⟩ :=
    (ABTestCalculator.validate_ok_iff c1).1 hv1
  have hvar : 0 < c1.variance := ABTestCalculator.variance_pos c1 hp1 hp1' hq1 hq1'
  have hden : 0 < c1.denominator := ABTestCalculator.denominator_pos c1 hmde
  have ea : ABTestCalculator.z_alpha ppf c2 = ABTestCalculator.z_alpha ppf c1 := by
    unfold ABTestCalculator.z_alpha
    rw [ha]
  have eb : ABTestCalculator.z_beta ppf c1 < ABTestCalculator.z_beta ppf c2 := by
    unfold ABTestCalculator.z_beta
    exact hmono
  have evar : c2.variance = c1.variance := by
    unfold ABTestCalculator.variance ABTestCalculator.p_bar ABTestCalculator.p2
    rw [hp, hm]
  have eden : c2.denominator = c1.denominator := by
    unfold ABTestCalculator.denominator ABTestCalculator.p2
    rw [hp, hm]
  have hS : (ABTestCalculator.z_alpha ppf c1 + ABTestCalculator.z_beta ppf c1) ^ 2 <
      (ABTestCalculator.z_alpha ppf c1 + ABTestCalculator.z_beta ppf c2) ^ 2 := by
    nlinarith [eb, hz]
  have raw_lt : ABTestCalculator.n_per_group ppf c1 <
      ABTestCalculator.n_per_group ppf c2 := by
    unfold ABTestCalculator.n_per_group
    rw [eden, div_lt_div_iff_of_pos_right hden]
    unfold ABTestCalculator.numerator
    rw [ea, evar]
    exact mul_lt_mul_of_pos_left hS (by linarith)
  rw [ABTestCalculator.calculate_sample_size_ok_elim h1,
    ABTestCalculator.calculate_sample_size_ok_elim h2]
  exact ⟨raw_lt, Int.ceil_le_ceil raw_lt.le⟩

/-- Parameters identical to `cW` except for a larger power (0.90). -/
def cP : ABTestCalculator := ⟨1/4, 1/2, 1/20, 9/10, 400, 1/2⟩

lemma cP_validate : cP.validate = .ok () := by
  rw [ABTestCalculator.validate_ok_iff]
  unfold cP
  norm_num

lemma cP_calc_any (ppf : ℚ → ℚ) : ABTestCalculator.calculate_sample_size ppf cP =
    .ok (ABTestCalculator.computeResult ppf cP) := by
  refine ABTestCalculator.calculate_sample_size_eq_ok ppf cP ?_ ?_ ?_ ?_ <;>
    · simp only [cP, ABTestCalculator.denominator, ABTestCalculator.p2,
        ABTestCalculator.treatment_per_day, ABTestCalculator.control_per_day]
      norm_num

theorem power_monotonicity_amended_witness :
    ABTestCalculator.n_per_group id cW < ABTestCalculator.n_per_group id cP ∧
      (ABTestCalculator.computeResult id cW).n_per_group ≤
        (ABTestCalculator.computeResult id cP).n_per_group :=
  power_monotonicity_amended id cW cP
    (ABTestCalculator.computeResult id cW) (ABTestCalculator.computeResult id cP)
    rfl rfl rfl rfl rfl cW_validate cP_validate
    (by unfold cW cP; norm_num) (by unfold cW; norm_num)
    (by unfold cW cP; norm_num)
    (by simp only [ABTestCalculator.z_alpha, ABTestCalculator.z_beta, id, cW]; norm_num)
    (cW_calc_any id) (cP_calc_any id)

/-- The spec's flagship parameters: baseline 20%, MDE 5 points,
alpha 0.05, power 0.80, 400 units/day, 50/50 split. -/
def cQ1 : ABTestCalculator := ⟨1/5, 1/20, 1/20, 4/5, 400, 1/2⟩

/-- Parameters identical to `cQ1` except for a slightly larger power
(0.800001). -/
def cQ2 : ABTestCalculator := ⟨1/5, 1/20, 1/20, 800001/1000000, 400, 1/2⟩

lemma cQ1_validate : cQ1.validate = .ok () := by
  rw [ABTestCalculator.validate_ok_iff]
  unfold cQ1
  norm_num

lemma cQ2_validate : cQ2.validate = .ok () := by
  rw [ABTestCalculator.validate_ok_iff]
  unfold cQ2
  norm_num

lemma cQ1_calc_any (ppf : ℚ → ℚ) : ABTestCalculator.calculate_sample_size ppf cQ1 =
    .ok (ABTestCalculator.computeResult ppf cQ1) := by
  refine ABTestCalculator.calculate_sample_size_eq_ok ppf cQ1 ?_ ?_ ?_ ?_ <;>
    · simp only [cQ1, ABTestCalculator.denominator, ABTestCalculator.p2,
        ABTestCalculator.treatment_per_day, ABTestCalculator.control_per_day]
      norm_num

lemma cQ2_calc_any (ppf : ℚ → ℚ) : ABTestCalculator.calculate_sample_size ppf cQ2 =
    .ok (ABTestCalculator.computeResult ppf cQ2) := by
  refine ABTestCalculator.calculate_sample_size_eq_ok ppf cQ2 ?_ ?_ ?_ ?_ <;>
    · simp only [cQ2, ABTestCalculator.denominator, ABTestCalculator.p2,
        ABTestCalculator.treatment_per_day, ABTestCalculator.control_per_day]
      norm_num

lemma cQ1_rawN : ABTestCalculator.n_per_group ppfN cQ1 = 87593484196431/80000000000 := by
  unfold ABTestCalculator.n_per_group ABTestCalculator.numerator
    ABTestCalculator.variance ABTestCalculator.p_bar
    ABTestCalculator.denominator ABTestCalculator.p2
    ABTestCalculator.z_alpha ABTestCalculator.z_beta ppfN cQ1
  norm_num

lemma cQ2_rawN : ABTestCalculator.n_per_group ppfN cQ2 = 2189893383511839/2000000000000 := by
  unfold ABTestCalculator.n_per_group ABTestCalculator.numerator
    ABTestCalculator.variance ABTestCalculator.p_bar
    ABTestCalculator.denominator ABTestCalculator.p2
    ABTestCalculator.z_alpha ABTestCalculator.z_beta ppfN cQ2
  norm_num

/-- C9 counterexample: two validated parameter sets that differ only in
`power` (0.80 versus 0.800001), fed with standard-normal quantile values
correctly rounded to `1e-6` (`z(0.975) ≈ 1.959964`,
`z(0.8) ≈ 0.841621`, `z(0.800001) ≈ 0.841657`, increasing in the power
as the true quantile is), produce the SAME rounded `n_per_group` (1095):
the integer output does not strictly increase when power strictly
increases. -/
theorem power_strict_monotonicity_fails :
    cQ1.validate = .ok () ∧ cQ2.validate = .ok () ∧
      cQ2.p1 = cQ1.p1 ∧ cQ2.mde = cQ1.mde ∧ cQ2.alpha = cQ1.alpha ∧
      cQ2.daily_volume = cQ1.daily_volume ∧
      cQ2.treatment_split = cQ1.treatment_split ∧
      cQ1.power < cQ2.power ∧
      ABTestCalculator.z_beta ppfN cQ1 < ABTestCalculator.z_beta ppfN cQ2 ∧
      (ABTestCalculator.calculate_sample_size ppfN cQ1).map
        SampleSizeResult.n_per_group = .ok 1095 ∧
      (ABTestCalculator.calculate_sample_size ppfN cQ2).map
        SampleSizeResult.n_per_group = .ok 1095 := by
  refine ⟨cQ1_validate, cQ2_validate, rfl, rfl, rfl, rfl, rfl,
    by unfold cQ1 cQ2; norm_num, ?_, ?_, ?_⟩
  · simp only [ABTestCalculator.z_beta, ppfN, cQ1, cQ2]
    norm_num
  · rw [cQ1_calc_any ppfN]
    simp only [Except.map, ABTestCalculator.computeResult, Except.ok.injEq]
    rw [cQ1_rawN, Int.ceil_eq_iff] <;> norm_num
  · rw [cQ2_calc_any ppfN]
    simp only [Except.map, ABTestCalculator.computeResult, Except.ok.injEq]
    rw [cQ2_rawN, Int.ceil_eq_iff] <;> norm_num

/-! ## Claim C6 -/

/-- C6: the sensitivity sweep returns exactly one compute result for each
MDE value with `baseline_rate + mde ≤ 1`, in input order, silently
skipping (not erroring on) the values with `baseline_rate + mde > 1`,
whenever the remaining parameters are valid and the listed MDE values are
positive (as all default ones are). -/
theorem sweep_returns_filtered_in_order (ppf : ℚ → ℚ)
    (p1 dv alpha power : ℚ) (mdes : List ℚ)
    (hp : 0 < p1) (hp1 : p1 < 1) (ha : 0 < alpha) (ha1 : alpha < 1)
    (hw : 0 < power) (hw1 : power < 1) (hd : 0 < dv)
    (hm : ∀ m ∈ mdes, 0 < m) :
    sweepLoop ppf p1 dv alpha power mdes =
      .ok ((mdes.filter (fun m => decide (p1 + m ≤ 1))).map
        (fun m => ABTestCalculator.computeResult ppf ⟨p1, m, alpha, power, dv, 1/2⟩)) := by
  induction mdes with
  | nil => rfl
  | cons m rest ih =>
    have hmm : 0 < m := hm m (List.mem_cons_self m rest)
    have hrest : ∀ x ∈ rest, 0 < x := fun x hx => hm x (List.mem_cons_of_mem m hx)
    by_cases hgt : p1 + m > 1
    · have hdec : (decide (p1 + m ≤ 1)) = false := decide_eq_false (not_le.2 hgt)
      simp only [sweepLoop]
      rw [if_pos hgt, ih hrest]
      simp [List.filter_cons, hdec]
    · have hle : p1 + m ≤ 1 := not_lt.1 hgt
      have hdec : (decide (p1 + m ≤ 1)) = true := decide_eq_true hle
      have hval : (⟨p1, m, alpha, power, dv, 1/2⟩ : ABTestCalculator).validate = .ok () := by
        rw [ABTestCalculator.validate_ok_iff]
        exact ⟨⟨hp, hp1⟩, ⟨add_pos hp hmm, hle⟩, ⟨ha, ha1⟩, ⟨hw, hw1⟩, hd,
          ⟨by norm_num, by norm_num⟩⟩
      have hinit : ABTestCalculator.init p1 m alpha power dv (1/2) =
          .ok ⟨p1, m, alpha, power, dv, 1/2⟩ := by
        simp only [ABTestCalculator.init, hval]
      obtain ⟨hden, ht, hc, hpz⟩ :=
        ABTestCalculator.divisors_ne_zero ⟨p1, m, alpha, power, dv, 1/2⟩ hval hmm.ne'
      have hcalc := ABTestCalculator.calculate_sample_size_eq_ok ppf
        ⟨p1, m, alpha, power, dv, 1/2⟩ hden ht hc hpz
      simp only [sweepLoop]
      rw [if_neg hgt]
      simp only [hinit, hcalc, ih hrest]
      simp [List.filter_cons, hdec]

theorem sweep_returns_filtered_in_order_witness :
    (0 < (1/5 : ℚ) ∧ (1/5 : ℚ) < 1 ∧ 0 < (400 : ℚ)) ∧
      (sensitivity_analysis ppfW (1/5) 400 (1/20) (4/5)).map List.length = .ok 7 := by
  refine ⟨by norm_num, ?_⟩
  rw [sensitivity_analysis,
    sweep_returns_filtered_in_order ppfW (1/5) 400 (1/20) (4/5) mde_values
      (by norm_num) (by norm_num) (by norm_num) (by norm_num)
      (by norm_num) (by norm_num) (by norm_num)
      (by
        intro x hx
        simp only [mde_values, List.mem_cons, List.not_mem_nil, or_false] at hx
        rcases hx with rfl | rfl | rfl | rfl | rfl | rfl | rfl <;> norm_num)]
  simp only [mde_values, Except.map, Except.ok.injEq]
  norm_num [List.filter_cons]
